import Mathlib

/-!
Verification of the enablebankinggo client library (shallow embedding).

The embedding models two client surfaces:

* the main API client (`client.go`, `utils.go`, `part_004`): a self-signed-JWT
  authorizer that mints RS256 tokens and caches them until near expiry;
* the control-panel client (`part_001`, `part_003`, `auth_operations.go`):
  a refresh-token authenticator with a one-shot refresh-and-replay protocol.

Conventions of the embedding:

* time is modelled as `Int` (Unix seconds); Go's `time.Time` comparisons
  `t1.Before t2` become `t1 < t2`; a `time.Duration` is an `Int` in the
  same unit;
* bytes are `Nat` (each < 256 for meaningful inputs); Go byte slices are
  `List Nat`;
* SHA-256 and the RSA-PKCS#1-v1.5 primitive are external collaborators and
  are abstracted as function parameters (`sha256Sum`, `rsaSignPKCS1v15`);
  PKCS#1 v1.5 signing is deterministic, so a pure function is faithful;
* JSON encoding of the two fixed JWT structs is reproduced concretely,
  including Go's `encoding/json` string escaping (HTML escaping on);
* HTTP header maps use assoc lists with `Set` = replace-or-append,
  mirroring `http.Header.Set` (keys stand for canonical MIME forms);
* Go panics (nil-pointer dereference, `WithTokenTTL`'s explicit panic) are
  modelled as `Option`/`Except` failure values;
* the network transport is an environment value: each dispatch consumes a
  prescribed `TransportEvent`, and runs record a trace of observable events.
-/

namespace EnableBanking

/-! ## Bytes, UTF-8, base64url -/

/-- UTF-8 encoding of a single Unicode scalar value, as a list of bytes. -/
def utf8Char (c : Char) : List Nat :=
  let n := c.toNat
  if n < 0x80 then [n]
  else if n < 0x800 then
    [0xC0 + n / 0x40, 0x80 + n % 0x40]
  else if n < 0x10000 then
    [0xE0 + n / 0x1000, 0x80 + n / 0x40 % 0x40, 0x80 + n % 0x40]
  else
    [0xF0 + n / 0x40000, 0x80 + n / 0x1000 % 0x40, 0x80 + n / 0x40 % 0x40,
     0x80 + n % 0x40]

/-- UTF-8 encoding of a string (Go strings are UTF-8 byte slices). -/
def utf8Encode (s : String) : List Nat :=
  s.data.flatMap utf8Char

/-- The base64url alphabet used by Go's `base64.RawURLEncoding`. -/
def b64urlAlphabet : List Char :=
  "ABCDEFGHIJKLMNOPQRSTUVWXYZabcdefghijklmnopqrstuvwxyz0123456789-_".data

/-- One alphabet character of base64url. -/
def b64Char (n : Nat) : Char := b64urlAlphabet.getD n 'A'

/-- `base64.RawURLEncoding.EncodeToString`: base64url, no padding. -/
def base64urlEncode : List Nat → String
  | [] => ""
  | [b1] =>
    String.mk [b64Char (b1 / 4), b64Char (b1 % 4 * 16)]
  | [b1, b2] =>
    String.mk [b64Char (b1 / 4), b64Char (b1 % 4 * 16 + b2 / 16),
               b64Char (b2 % 16 * 4)]
  | b1 :: b2 :: b3 :: rest =>
    String.mk [b64Char (b1 / 4), b64Char (b1 % 4 * 16 + b2 / 16),
               b64Char (b2 % 16 * 4 + b3 / 64), b64Char (b3 % 64)] ++
    base64urlEncode rest

/-! ## Go `encoding/json` string serialization -/

/-- Hex digit (lower case), as used in `\u00XX` escapes. -/
def hexDigit (n : Nat) : Char :=
  "0123456789abcdef".data.getD n '0'

/-- Go `encoding/json` escaping of one character inside a JSON string
(HTML escaping enabled, the default for `json.Marshal`). -/
def goJSONEscapeChar (c : Char) : String :=
  if c = '"' then "\\\""
  else if c = '\\' then "\\\\"
  else if c = '\n' then "\\n"
  else if c = '\r' then "\\r"
  else if c = '\t' then "\\t"
  else if c.toNat < 0x20 then
    "\\u00" ++ String.mk [hexDigit (c.toNat / 16), hexDigit (c.toNat % 16)]
  else if c = '<' then "\\u003c"
  else if c = '>' then "\\u003e"
  else if c = '&' then "\\u0026"
  else if c.toNat = 0x2028 then "\\u2028"
  else if c.toNat = 0x2029 then "\\u2029"
  else String.mk [c]

/-- Go `encoding/json` serialization of a string value (with quotes). -/
def goJSONString (s : String) : String :=
  "\"" ++ String.join (s.data.map goJSONEscapeChar) ++ "\""

/-! ## utils.go: sign, getJwtHeader, getJwtBody

`sign` computes the SHA-256 digest of the data, signs it with RSA
PKCS#1 v1.5 and base64url-encodes the signature.  The hash and the RSA
primitive (with the private key baked in) are abstract collaborators. -/

/-- `sign(privateKey, data)` from utils.go, with the SHA-256 and RSA
collaborators abstracted as `sha256Sum` and `rsaSignPKCS1v15`. -/
def sign (sha256Sum rsaSignPKCS1v15 : List Nat → List Nat)
    (data : List Nat) : String :=
  base64urlEncode (rsaSignPKCS1v15 (sha256Sum data))

/-- JSON serialization of the JWT header struct from `getJwtHeader`:
fields in declaration order `alg`, `typ`, `kid`. -/
def jwtHeaderJSON (appId : String) : String :=
  "\x7b\"alg\":\"RS256\",\"typ\":\"JWT\",\"kid\":" ++ goJSONString appId ++ "\x7d"

/-- `getJwtHeader(appId)` from utils.go: base64url of the marshalled header. -/
def getJwtHeader (appId : String) : String :=
  base64urlEncode (utf8Encode (jwtHeaderJSON appId))

/-- JSON serialization of the JWT body struct from `getJwtBody`:
fields in declaration order `iss`, `aud`, `iat`, `exp`. -/
def jwtBodyJSON (iat ttl : Int) : String :=
  "\x7b\"iss\":\"enablebanking.com\",\"aud\":\"api.enablebanking.com\",\"iat\":" ++
    toString iat ++ ",\"exp\":" ++ toString (iat + ttl) ++ "\x7d"

/-- `getJwtBody(ttl)` from utils.go, with `now` (the `time.Now().Unix()`
read) passed explicitly: returns the base64url body segment and the
expiry timestamp `time.Unix(iat+ttl, 0)`. -/
def getJwtBody (ttl now : Int) : String × Int :=
  (base64urlEncode (utf8Encode (jwtBodyJSON now ttl)), now + ttl)

/-! ## HTTP requests and headers

`http.Header.Set` replaces any existing value for the key; header keys
here stand for their canonical MIME forms.  A request body is `none` for
a nil `io.Reader` and `some bytes` for a readable body. -/

/-- An HTTP header collection, assoc list with unique keys maintained by
`headerSet`. -/
def HTTPHeader : Type := List (String × String)

/-- `http.Header.Set`: replace any existing value for the key.  A Go
`http.Header` is an unordered map, so the entry order of this assoc list
carries no meaning; `Set` stores the new binding and drops any old one. -/
def headerSet (h : List (String × String)) (k v : String) :
    List (String × String) :=
  (k, v) :: h.filter fun kv => kv.1 ≠ k

/-- `http.Header.Get` (first/only value for the key). -/
def headerGet (h : List (String × String)) (k : String) : Option String :=
  (h.find? fun kv => kv.1 = k).map Prod.snd

/-- An `*http.Request` as far as this library observes it. -/
structure Request where
  method : String
  url : String
  headers : List (String × String)
  body : Option (List Nat)
deriving Repr, DecidableEq

/-- Replace one header of a request (`req.Header.Set`). -/
def Request.setHeader (r : Request) (k v : String) : Request :=
  { r with headers := headerSet r.headers k v }

/-! ## part_004: the self-signed-JWT authorizer

`authorizer` holds the JWT configuration and the cached token.  `tokenTTL`
is in seconds; `extraTTL` (the clock-skew allowance) is kept in the same
time unit as the `now` values passed to `AuthorizeRequest`. -/

/-- The `authorizer` struct from part_004 (the RSA private key is folded
into the abstract `rsaSignPKCS1v15` collaborator). -/
structure Authorizer where
  applicationID : String
  tokenTTL : Int
  extraTTL : Int
  token : String
  expiresAt : Int
deriving Repr, DecidableEq

/-- `newAuthorizer`: empty token cache, zero expiry. -/
def newAuthorizer (applicationID : String) (tokenTTL extraTTL : Int) :
    Authorizer :=
  { applicationID := applicationID, tokenTTL := tokenTTL,
    extraTTL := extraTTL, token := "", expiresAt := 0 }

/-- `generateJWT` from part_004: build header and body segments, sign
`header ++ "." ++ body`, store the token and its expiry in the cache. -/
def generateJWT (sha256Sum rsaSignPKCS1v15 : List Nat → List Nat)
    (a : Authorizer) (now : Int) : Authorizer :=
  let header := getJwtHeader a.applicationID
  let bodyExp := getJwtBody a.tokenTTL now
  let signBody := header ++ "." ++ bodyExp.1
  let signature := sign sha256Sum rsaSignPKCS1v15 (utf8Encode signBody)
  { a with token := signBody ++ "." ++ signature, expiresAt := bodyExp.2 }

/-- `AuthorizeRequest` from part_004, single-threaded embedding: both the
read-locked fast-path check and the write-locked re-check read the same
`now`, so they collapse into one test.  Returns the updated authorizer,
the authorized request, and the number of signing operations performed
(0 or 1). -/
def AuthorizeRequest (sha256Sum rsaSignPKCS1v15 : List Nat → List Nat)
    (a : Authorizer) (now : Int) (req : Request) :
    Authorizer × Request × Nat :=
  if a.token ≠ "" ∧ now + a.extraTTL < a.expiresAt then
    (a, req.setHeader "Authorization" ("Bearer " ++ a.token), 0)
  else
    let a2 := generateJWT sha256Sum rsaSignPKCS1v15 a now
    (a2, req.setHeader "Authorization" ("Bearer " ++ a2.token), 1)

/-- A sequence of `AuthorizeRequest` calls at the given times on one
authorizer instance: final state, the `Authorization` header value each
call attached, and the total number of signing operations. -/
def authorizeSeq (sha256Sum rsaSignPKCS1v15 : List Nat → List Nat)
    (a : Authorizer) : List Int → Authorizer × List (Option String) × Nat
  | [] => (a, [], 0)
  | t :: ts =>
    let step := AuthorizeRequest sha256Sum rsaSignPKCS1v15 a t
      { method := "GET", url := "", headers := [], body := none }
    let rest := authorizeSeq sha256Sum rsaSignPKCS1v15 step.1 ts
    (rest.1, headerGet step.2.1.headers "Authorization" :: rest.2.1,
     step.2.2 + rest.2.2)

/-! ## Response classification (client.go `sendRequest`,
part_001 `sendRequestInternal`)

Both functions are textually identical in the source, apart from the
error-body type they decode.  The transport and the JSON decoder are
external collaborators, so a dispatch is modelled by a `TransportEvent`
that records what they produced: either a transport error from
`httpClient.Do`, or a response with its status code, the outcome of
decoding its body as the structured error type `ε` (`none` = the body
does not decode), and the outcome of decoding it as the result type `ρ`. -/

/-- What one `httpClient.Do` round trip produced, with the JSON decoding
collaborator's outcomes attached. -/
inductive TransportEvent (ε ρ : Type) where
  | doErr (msg : String)
  | resp (statusCode : Int) (decErr : Option ε) (decRes : Option ρ)
deriving Repr, DecidableEq

/-- The outcome of a dispatch as the Go code classifies it: `success v`
models a nil error return (with the decoded value when one was
requested); every other constructor models a non-nil Go `error`. -/
inductive ApiResult (ε ρ : Type) where
  | success (v : Option ρ)
  | transportErr (msg : String)
  | unexpectedStatus (statusCode : Int)
  | unexpectedAPIError (statusCode : Int)
  | apiError (e : ε)
  | decodeErr
  | refreshErr (msg : String)
deriving Repr, DecidableEq

/-- The classification shared by client.go `sendRequest` and part_001
`sendRequestInternal`.  `wantResult` is whether the caller passed a
non-nil `resp` destination. -/
def classifyResponse {ε ρ : Type} (wantResult : Bool) :
    TransportEvent ε ρ → ApiResult ε ρ
  | .doErr msg => .transportErr msg
  | .resp statusCode decErr decRes =>
    if statusCode < 200 ∨ statusCode > 500 then .unexpectedStatus statusCode
    else if statusCode ≠ 200 then
      match decErr with
      | none => .unexpectedAPIError statusCode
      | some e => .apiError e
    else if wantResult then
      match decRes with
      | none => .decodeErr
      | some v => .success (some v)
    else .success none

/-- The main-API `ErrorResponse` from errors.go (the `Detail` list never
influences control flow and is omitted). -/
structure ErrorResponse where
  message : String
  code : Int
  errorCode : String
deriving Repr, DecidableEq

/-- `sendRequest` from client.go (same classification as part_001
`sendRequestInternal`, with the main-API error body). -/
def sendRequest {ρ : Type} (wantResult : Bool)
    (ev : TransportEvent ErrorResponse ρ) : ApiResult ErrorResponse ρ :=
  classifyResponse wantResult ev

/-! ## part_003 / part_001: control-panel error body and client -/

/-- The nested `error` object of the control-panel `ErrorResponse`
(part_003); the `errors` detail list never influences control flow and
is omitted. -/
structure CPErrorObj where
  code : Int
  message : String
deriving Repr, DecidableEq

/-- The control-panel `ErrorResponse` (part_003). -/
structure CPErrorResponse where
  errorObj : CPErrorObj
deriving Repr, DecidableEq

/-- `sendRequestInternal` from part_001 (same classification as
client.go `sendRequest`, with the control-panel error body). -/
def sendRequestInternal {ρ : Type} (wantResult : Bool)
    (ev : TransportEvent CPErrorResponse ρ) : ApiResult CPErrorResponse ρ :=
  classifyResponse wantResult ev

/-- `Token` from part_001. -/
structure Token where
  idToken : String
  refreshToken : String
  expiresIn : Int
deriving Repr, DecidableEq

/-- `RefreshTokenResponse` from auth_operations.go. -/
structure RefreshTokenResponse where
  accessToken : String
  expiresIn : Int
  tokenType : String
  refreshToken : String
  idToken : String
  userID : String
  projectID : String
deriving Repr, DecidableEq

/-- The `Token` assembled from a refresh response by lines 158-160 of
part_001: `idToken`, `refreshToken` and `expiresIn` are all overwritten
from the response. -/
def Token.ofRefresh (r : RefreshTokenResponse) : Token :=
  { idToken := r.idToken, refreshToken := r.refreshToken,
    expiresIn := r.expiresIn }

/-- The control-panel `APIClient` state that `sendAuthenticatedRequest`
reads and writes: the token pointer (`none` models a nil `*Token`) and
whether an `onTokenRefreshed` callback is configured. -/
structure CPClient where
  token : Option Token
  hasCallback : Bool
deriving Repr, DecidableEq

/-- The environment of one `sendAuthenticatedRequest` call: what the
transport and the refresh endpoint return on the (at most) two
dispatches and the (at most) one refresh. -/
structure AuthEnv (ρ : Type) where
  first : TransportEvent CPErrorResponse ρ
  refresh : Except String RefreshTokenResponse
  replay : TransportEvent CPErrorResponse ρ

/-- Observable events of a `sendAuthenticatedRequest` run, in order. -/
inductive AuthEvent (ρ : Type) where
  | dispatched (req : Request)
  | refreshCall (refreshToken : String)
  | callback (t : Token)
deriving Repr, DecidableEq

/-- `IsErrorResponse(err)` combined with the message test on line 146 of
part_001: the dispatch outcome is a decoded structured error whose
message is exactly "Unauthorized". -/
def isUnauthorizedResult {ρ : Type} : ApiResult CPErrorResponse ρ → Bool
  | .apiError e => e.errorObj.message = "Unauthorized"
  | _ => false

/-- `sendAuthenticatedRequest` from part_001, single-threaded embedding.

Returns `none` when the Go code would panic (nil `*Token` dereference on
line 128); otherwise the updated client, the returned `error`/result, and
the ordered trace of dispatches, refresh calls and callback invocations.
The mutex is not modelled: in a single-threaded run `c.token` cannot
become nil between line 128 and the line-149 check, so that check is
always false here. -/
def sendAuthenticatedRequest {ρ : Type} (c : CPClient) (req : Request)
    (wantResult : Bool) (env : AuthEnv ρ) :
    Option (CPClient × ApiResult CPErrorResponse ρ × List (AuthEvent ρ)) :=
  match c.token with
  | none => none
  | some t =>
    let req1 := req.setHeader "Authorization" ("Bearer " ++ t.idToken)
    let bodyBytes := match req1.body with
      | some bs => bs
      | none => []
    let req2 := { req1 with body := some bodyBytes }
    let r1 := sendRequestInternal wantResult env.first
    if isUnauthorizedResult r1 then
      match env.refresh with
      | .error msg =>
        some (c, .refreshErr ("failed to refresh token: " ++ msg),
          [.dispatched req2, .refreshCall t.refreshToken])
      | .ok newResp =>
        let newTok : Token := Token.ofRefresh newResp
        let c2 : CPClient := { c with token := some newTok }
        let cbEvents : List (AuthEvent ρ) :=
          if c.hasCallback then [.callback newTok] else []
        let cloned :=
          { req2.setHeader "Authorization" ("Bearer " ++ newResp.idToken) with
            body := some bodyBytes }
        some (c2, sendRequestInternal wantResult env.replay,
          [.dispatched req2, .refreshCall t.refreshToken] ++ cbEvents ++
            [.dispatched cloned])
    else some (c, r1, [.dispatched req2])

/-- Number of refresh calls in a trace. -/
def refreshCount {ρ : Type} (events : List (AuthEvent ρ)) : Nat :=
  events.countP fun e => match e with
    | .refreshCall _ => true
    | _ => false

/-- The requests dispatched in a trace, in order. -/
def dispatchedReqs {ρ : Type} : List (AuthEvent ρ) → List Request
  | [] => []
  | .dispatched r :: rest => r :: dispatchedReqs rest
  | _ :: rest => dispatchedReqs rest

/-! ## client.go: construction of the main API client

Construction only inspects whether the RSA private key is nil, never its
contents, so the client is parametric in the key type `κ` and holds
`Option κ` (`none` models a nil `*rsa.PrivateKey`).  Go panics
(`WithTokenTTL`'s explicit `panic`) are modelled as `Except.error`: the
option value never comes into existence, so no client embedding it can
be constructed. -/

/-- `ClientDefaultTokenTTL` (seconds). -/
def ClientDefaultTokenTTL : Int := 3600

/-- `ClientMaximumTokenTTL` (seconds). -/
def ClientMaximumTokenTTL : Int := 86400

/-- `ClientDefaultTokenTTLExtraTime` (10 seconds, in the second-based
time unit of the embedding). -/
def ClientDefaultTokenTTLExtraTime : Int := 10

/-- The main `APIClient` from client.go, parametric in the private-key
type. -/
structure APIClient (κ : Type) where
  baseURL : String
  headers : List (String × String)
  privateKey : Option κ
  authorizer : Authorizer
deriving Repr, DecidableEq

/-- `WithTokenTTL` from client.go: panics (here `Except.error`) unless
`0 < ttl ≤ 86400`, else yields an option that overwrites the
authorizer's TTL. -/
def WithTokenTTL (κ : Type) (ttl : Int) :
    Except String (APIClient κ → APIClient κ) :=
  if ttl ≤ 0 ∨ ttl > ClientMaximumTokenTTL then
    .error "token TTL must be between 1 and 86400 seconds"
  else
    .ok fun c =>
      { c with authorizer := { c.authorizer with tokenTTL := ttl } }

/-- `NewClient` from client.go: reject an empty application ID, then a
nil private key; otherwise build the default client and apply the
options in order. -/
def NewClient {κ : Type} (applicationID : String) (privateKey : Option κ)
    (options : List (APIClient κ → APIClient κ)) :
    Except String (APIClient κ) :=
  if applicationID = "" then .error "application ID cannot be empty"
  else
    match privateKey with
    | none => .error "private key cannot be nil"
    | some key =>
      let c : APIClient κ :=
        { baseURL := "https://api.enablebanking.com",
          headers := [],
          privateKey := some key,
          authorizer := newAuthorizer applicationID ClientDefaultTokenTTL
            ClientDefaultTokenTTLExtraTime }
      .ok (options.foldl (fun c o => o c) c)

/-! ## Header layering (models.go `FillHTTPHeader`, client.go
`newRequest`, part_000 `GetAccountDetails`) -/

/-- `Header.FillHTTPHeader` from models.go: `httpHeader.Set` every entry
of the header map onto the target.  A Go map has unique keys, so the
iteration order does not matter; the map is modelled as an assoc list
with unique keys. -/
def FillHTTPHeader (h : List (String × String))
    (target : List (String × String)) : List (String × String) :=
  h.foldl (fun t kv => headerSet t kv.1 kv.2) target

/-- The header population performed by client.go `newRequest` (lines
196-210) for a request carrying `hasBody`: fill the client-level default
headers, set `Content-Type` when there is a body, then the authorizer
sets `Authorization`. -/
def newRequestHeaders (clientHeaders : List (String × String))
    (hasBody : Bool) (bearerToken : String) : List (String × String) :=
  let h1 := FillHTTPHeader clientHeaders []
  let h2 := if hasBody then headerSet h1 "Content-Type" "application/json"
            else h1
  headerSet h2 "Authorization" ("Bearer " ++ bearerToken)

/-- The headers of the outgoing `GetAccountDetails` request (part_000
lines 78-99): `newRequest` with a nil body, then the per-call headers
(when provided) are filled on top. -/
def getAccountDetailsHeaders (clientHeaders : List (String × String))
    (bearerToken : String) (callHeaders : Option (List (String × String))) :
    List (String × String) :=
  let base := newRequestHeaders clientHeaders false bearerToken
  match callHeaders with
  | none => base
  | some hs => FillHTTPHeader hs base

/-- A sample decoded main-API error body, used as a concrete input. -/
def sampleErr : ErrorResponse :=
  { message := "m", code := 404, errorCode := "ACCESS_DENIED" }

/-- A sample empty request, used as a concrete input. -/
def emptyReq : Request :=
  { method := "GET", url := "", headers := [], body := none }

/-- The decoded structured error body `{error: {code: 401, message:
"Unauthorized"}}` that triggers the refresh path. -/
def unauthorizedErr : CPErrorResponse :=
  { errorObj := { code := 401, message := "Unauthorized" } }

/-- Control-panel token "A"/"R1" (scenario B of the spec). -/
def tokenA : Token :=
  { idToken := "A", refreshToken := "R1", expiresIn := 0 }

/-- A control-panel client holding `tokenA`, with a callback configured. -/
def cpClientA : CPClient := { token := some tokenA, hasCallback := true }

/-- Refresh response carrying id token "B" and refresh token "R2"
(scenario B of the spec). -/
def refreshRespB : RefreshTokenResponse :=
  { accessToken := "AT", expiresIn := 3600, tokenType := "Bearer",
    refreshToken := "R2", idToken := "B", userID := "U", projectID := "P" }

/-- The token assembled from `refreshRespB`. -/
def tokenB : Token := Token.ofRefresh refreshRespB

/-- Environment: first dispatch gets the Unauthorized error, the refresh
succeeds with `refreshRespB`, the replay succeeds. -/
def envOkB : AuthEnv Unit :=
  { first := .resp 401 (some unauthorizedErr) none,
    refresh := .ok refreshRespB,
    replay := .resp 200 none (some ()) }

/-- Environment: first dispatch gets the Unauthorized error and the
refresh call itself fails. -/
def envRefreshFail : AuthEnv Unit :=
  { first := .resp 401 (some unauthorizedErr) none,
    refresh := .error "boom",
    replay := .resp 200 none (some ()) }

/-- `emptyReq` after the authorization header is attached and the (empty)
body is buffered. -/
def emptyReqBearer (tok : String) : Request :=
  { method := "GET", url := "",
    headers := [("Authorization", "Bearer " ++ tok)], body := some [] }

/-- A sample request with a non-empty body. -/
def reqBody123 : Request :=
  { method := "POST", url := "/x", headers := [], body := some [1, 2, 3] }

/-- `reqBody123` after the authorization header is attached and the body
is buffered. -/
def reqBody123Bearer (tok : String) : Request :=
  { method := "POST", url := "/x",
    headers := [("Authorization", "Bearer " ++ tok)],
    body := some [1, 2, 3] }

/-- The trace of the successful refresh-and-replay run of `emptyReq` on
`cpClientA` under `envOkB`. -/
def traceOkB : List (AuthEvent Unit) :=
  [.dispatched (emptyReqBearer "A"), .refreshCall "R1", .callback tokenB,
   .dispatched (emptyReqBearer "B")]

/-- The trace of the successful refresh-and-replay run of `reqBody123` on
`cpClientA` under `envOkB`. -/
def traceOkBody : List (AuthEvent Unit) :=
  [.dispatched (reqBody123Bearer "A"), .refreshCall "R1", .callback tokenB,
   .dispatched (reqBody123Bearer "B")]

/-- The trace of a second `emptyReq` call under `envOkB` on the client
already holding `tokenB`. -/
def traceOkB2 : List (AuthEvent Unit) :=
  [.dispatched (emptyReqBearer "B"), .refreshCall "R2", .callback tokenB,
   .dispatched (emptyReqBearer "B")]

/-! ## Theorems -/

/-- On the fast path (cached token present and still valid after adding
the skew allowance), `AuthorizeRequest` leaves the authorizer unchanged,
attaches the cached token, and performs no signing. -/
theorem AuthorizeRequest_fast (sha256Sum rsaSignPKCS1v15 : List Nat → List Nat)
    (a : Authorizer) (now : Int) (req : Request)
    (h1 : a.token ≠ "") (h2 : now + a.extraTTL < a.expiresAt) :
    AuthorizeRequest sha256Sum rsaSignPKCS1v15 a now req =
      (a, req.setHeader "Authorization" ("Bearer " ++ a.token), 0) := by
  simp [AuthorizeRequest, h1, h2]

/-- Claim C2: for all sequences of `AuthorizeRequest` calls on one
JWT-authorizer instance made while a cached token exists and every call
time plus the skew allowance is still before the cached expiry, no
signing operation runs (hence at most one), the authorizer state is
unchanged, and every request in the window gets the identical
`Authorization: Bearer <token>` header built from the cached token. -/
theorem authorizeSeq_reuse_in_window
    (sha256Sum rsaSignPKCS1v15 : List Nat → List Nat) (a : Authorizer)
    (ts : List Int) (h1 : a.token ≠ "")
    (h2 : ∀ t ∈ ts, t + a.extraTTL < a.expiresAt) :
    authorizeSeq sha256Sum rsaSignPKCS1v15 a ts =
      (a, ts.map fun _ => some ("Bearer " ++ a.token), 0) := by
  induction ts with
  | nil => rfl
  | cons t ts ih =>
    have ht : t + a.extraTTL < a.expiresAt := h2 t (List.mem_cons_self t ts)
    have hts : ∀ u ∈ ts, u + a.extraTTL < a.expiresAt := fun u hu =>
      h2 u (List.mem_cons_of_mem t hu)
    simp [authorizeSeq, AuthorizeRequest, h1, ht, ih hts, Request.setHeader,
      headerSet, headerGet]

/-- Witness for claim C2 at a concrete authorizer and call times. -/
theorem authorizeSeq_reuse_in_window_witness :
    authorizeSeq id id
        { applicationID := "app", tokenTTL := 3600, extraTTL := 10,
          token := "tok", expiresAt := 5000 } [1, 2, 3] =
      ({ applicationID := "app", tokenTTL := 3600, extraTTL := 10,
         token := "tok", expiresAt := 5000 },
       [some "Bearer tok", some "Bearer tok", some "Bearer tok"], 0) := by
  have := authorizeSeq_reuse_in_window id id
    { applicationID := "app", tokenTTL := 3600, extraTTL := 10,
      token := "tok", expiresAt := 5000 } [1, 2, 3]
    (by decide) (by decide)
  simpa using this

/-- Claim C3: whenever the JWT authorizer mints a token, the token equals
base64url (no padding) of the JSON header `{alg:"RS256", typ:"JWT",
kid:<applicationID>}`, then ".", then base64url of the JSON body
`{iss:"enablebanking.com", aud:"api.enablebanking.com", iat:now,
exp:now+tokenTTL}`, then ".", then the base64url-encoded RSA PKCS#1 v1.5
signature over the SHA-256 digest of `header ++ "." ++ body`; and the
cached expiry is set to the body's `exp` value. -/
theorem generateJWT_token_structure
    (sha256Sum rsaSignPKCS1v15 : List Nat → List Nat) (a : Authorizer)
    (now : Int) :
    (generateJWT sha256Sum rsaSignPKCS1v15 a now).token =
      (base64urlEncode (utf8Encode
          ("\x7b\"alg\":\"RS256\",\"typ\":\"JWT\",\"kid\":" ++
            goJSONString a.applicationID ++ "\x7d")) ++ "." ++
        base64urlEncode (utf8Encode
          ("\x7b\"iss\":\"enablebanking.com\",\"aud\":\"api.enablebanking.com\",\"iat\":" ++
            toString now ++ ",\"exp\":" ++ toString (now + a.tokenTTL) ++
            "\x7d"))) ++ "." ++
      base64urlEncode (rsaSignPKCS1v15 (sha256Sum (utf8Encode
        (base64urlEncode (utf8Encode
            ("\x7b\"alg\":\"RS256\",\"typ\":\"JWT\",\"kid\":" ++
              goJSONString a.applicationID ++ "\x7d")) ++ "." ++
          base64urlEncode (utf8Encode
            ("\x7b\"iss\":\"enablebanking.com\",\"aud\":\"api.enablebanking.com\",\"iat\":" ++
              toString now ++ ",\"exp\":" ++ toString (now + a.tokenTTL) ++
              "\x7d")))))) ∧
    (generateJWT sha256Sum rsaSignPKCS1v15 a now).expiresAt =
      now + a.tokenTTL := by
  constructor
  · simp [generateJWT, getJwtHeader, getJwtBody, jwtHeaderJSON, jwtBodyJSON,
      sign]
  · rfl

/-- Counterexample to claim C4 as stated: with cached expiry 100, skew
allowance 50 and token TTL 10, a call at time 60 satisfies
`now + skew ≥ expiresAt`, so a token is minted — but its expiry is
60 + 10 = 70, which is *earlier* than the previous expiry 100, refuting
"a strictly new token is minted whose exp is later than the previous
one".  (The code never validates that the skew allowance set by
`WithTokenTTLExtraTime` is below the token TTL.) -/
theorem AuthorizeRequest_renewal_counterexample :
    (60 : Int) + 50 ≥ 100 ∧
    (AuthorizeRequest id id
        { applicationID := "app", tokenTTL := 10, extraTTL := 50,
          token := "tok", expiresAt := 100 } 60
        { method := "GET", url := "", headers := [], body := none }).2.2 = 1 ∧
    (AuthorizeRequest id id
        { applicationID := "app", tokenTTL := 10, extraTTL := 50,
          token := "tok", expiresAt := 100 } 60
        { method := "GET", url := "", headers := [], body := none
          }).1.expiresAt = 70 ∧
    ¬ ((70 : Int) > 100) := by
  refine ⟨by norm_num, rfl, rfl, by norm_num⟩

/-- Claim C4 (amended): for every `AuthorizeRequest` call made when
`now + skewAllowance ≥ expiresAt`, a new token is minted (exactly one
signing) with expiry `now + tokenTTL`; that expiry is strictly later
than the previous one whenever the skew allowance is below the token TTL
(in particular in the default configuration); and a cached token is
never attached to a request at or past its nominal expiry whenever the
skew allowance is nonnegative (in particular when it is zero). -/
theorem AuthorizeRequest_renewal
    (sha256Sum rsaSignPKCS1v15 : List Nat → List Nat) (a : Authorizer)
    (now now2 : Int) (req : Request)
    (hexp : a.expiresAt ≤ now + a.extraTTL) :
    (AuthorizeRequest sha256Sum rsaSignPKCS1v15 a now req).2.2 = 1 ∧
    (AuthorizeRequest sha256Sum rsaSignPKCS1v15 a now req).1.expiresAt =
      now + a.tokenTTL ∧
    (a.extraTTL < a.tokenTTL →
      a.expiresAt <
        (AuthorizeRequest sha256Sum rsaSignPKCS1v15 a now req).1.expiresAt) ∧
    (0 ≤ a.extraTTL →
      (AuthorizeRequest sha256Sum rsaSignPKCS1v15 a now2 req).2.2 = 0 →
      now2 < a.expiresAt) := by
  have hcond : ¬(a.token ≠ "" ∧ now + a.extraTTL < a.expiresAt) :=
    fun h => absurd h.2 (not_lt.mpr hexp)
  refine ⟨?_, ?_, ?_, ?_⟩
  · simp [AuthorizeRequest, hcond]
  · simp [AuthorizeRequest, hcond, generateJWT, getJwtBody]
  · intro hlt
    have h2 : (AuthorizeRequest sha256Sum rsaSignPKCS1v15 a now
        req).1.expiresAt = now + a.tokenTTL := by
      simp [AuthorizeRequest, hcond, generateJWT, getJwtBody]
    rw [h2]
    omega
  · intro hskew h0
    by_cases hc : a.token ≠ "" ∧ now2 + a.extraTTL < a.expiresAt
    · omega
    · simp [AuthorizeRequest, hc] at h0

/-- Witness for the amended claim C4 at a concrete authorizer: skew 0,
expiry 100, a minting call at time 100 and a reusing call at time 50. -/
theorem AuthorizeRequest_renewal_witness :
    (AuthorizeRequest id id
        { applicationID := "app", tokenTTL := 3600, extraTTL := 0,
          token := "tok", expiresAt := 100 } 100
        { method := "GET", url := "", headers := [], body := none }).2.2 = 1 ∧
    (AuthorizeRequest id id
        { applicationID := "app", tokenTTL := 3600, extraTTL := 0,
          token := "tok", expiresAt := 100 } 100
        { method := "GET", url := "", headers := [], body := none
          }).1.expiresAt = 100 + 3600 ∧
    ((0 : Int) < 3600 →
      (100 : Int) <
        (AuthorizeRequest id id
            { applicationID := "app", tokenTTL := 3600, extraTTL := 0,
              token := "tok", expiresAt := 100 } 100
            { method := "GET", url := "", headers := [], body := none
              }).1.expiresAt) ∧
    ((0 : Int) ≤ 0 →
      (AuthorizeRequest id id
          { applicationID := "app", tokenTTL := 3600, extraTTL := 0,
            token := "tok", expiresAt := 100 } 50
          { method := "GET", url := "", headers := [], body := none
            }).2.2 = 0 →
      (50 : Int) < 100) :=
  AuthorizeRequest_renewal id id
    { applicationID := "app", tokenTTL := 3600, extraTTL := 0,
      token := "tok", expiresAt := 100 } 100 50
    { method := "GET", url := "", headers := [], body := none }
    (by norm_num)

/-- Claim C6: the response classifier (client.go `sendRequest` and
part_001 `sendRequestInternal`, both equal to `classifyResponse`)
behaves as follows.  A status outside [200, 500] yields the generic
"unexpected status" error and is independent of the body-decoding
outcomes (no decoding attempted).  A status inside [200, 500] other than
200 yields the decoded structured error when the body decodes, else the
generic "unexpected API error" carrying only the status code.  Status
exactly 200 yields the decoded result when one was requested (a decode
failure is an error for the call), and success with no value when no
result shape was requested. -/
theorem classifyResponse_classification {ε ρ : Type} (wantResult : Bool)
    (code1 code2 : Int) (decErr decErr2 : Option ε) (decRes decRes2 : Option ρ)
    (e : ε) (v : ρ) (ev1 : TransportEvent ErrorResponse ρ)
    (ev2 : TransportEvent CPErrorResponse ρ)
    (h1 : code1 < 200 ∨ code1 > 500)
    (h2 : 200 ≤ code2 ∧ code2 ≤ 500 ∧ code2 ≠ 200) :
    (classifyResponse wantResult (.resp code1 decErr decRes) =
        (.unexpectedStatus code1 : ApiResult ε ρ) ∧
      classifyResponse wantResult (.resp code1 decErr decRes) =
        classifyResponse wantResult (.resp code1 decErr2 decRes2)) ∧
    (classifyResponse wantResult (.resp code2 (some e) decRes) =
        (.apiError e : ApiResult ε ρ) ∧
      classifyResponse wantResult (.resp code2 (none : Option ε) decRes) =
        (.unexpectedAPIError code2 : ApiResult ε ρ)) ∧
    classifyResponse true (.resp 200 decErr (some v)) =
      (.success (some v) : ApiResult ε ρ) ∧
    classifyResponse true (.resp 200 decErr (none : Option ρ)) =
      (.decodeErr : ApiResult ε ρ) ∧
    classifyResponse false (.resp 200 decErr decRes) =
      (.success none : ApiResult ε ρ) ∧
    sendRequest wantResult ev1 = classifyResponse wantResult ev1 ∧
    sendRequestInternal wantResult ev2 = classifyResponse wantResult ev2 := by
  have hn1 : ¬(code2 < 200 ∨ code2 > 500) := by omega
  refine ⟨⟨?_, ?_⟩, ⟨?_, ?_⟩, ?_, ?_, ?_, rfl, rfl⟩
  · simp only [classifyResponse]
    rw [if_pos h1]
  · simp only [classifyResponse]
    rw [if_pos h1, if_pos h1]
  · simp only [classifyResponse]
    rw [if_neg hn1, if_pos h2.2.2]
  · simp only [classifyResponse]
    rw [if_neg hn1, if_pos h2.2.2]
  · simp [classifyResponse]
  · simp [classifyResponse]
  · simp [classifyResponse]

/-- Witness for claim C6 at concrete statuses 600 (out of range) and 404
(structured-error range), with concrete decode outcomes. -/
theorem classifyResponse_classification_witness :
    (classifyResponse true (.resp 600 (some sampleErr) (some ())) =
        (.unexpectedStatus 600 : ApiResult ErrorResponse Unit) ∧
      classifyResponse true (.resp 600 (some sampleErr) (some ())) =
        classifyResponse true (.resp 600 none none)) ∧
    (classifyResponse true (.resp 404 (some sampleErr) (some ())) =
        (.apiError sampleErr : ApiResult ErrorResponse Unit) ∧
      classifyResponse true (.resp 404 (none : Option ErrorResponse)
          (some ())) =
        (.unexpectedAPIError 404 : ApiResult ErrorResponse Unit)) ∧
    classifyResponse true (.resp 200 (some sampleErr) (some ())) =
      (.success (some ()) : ApiResult ErrorResponse Unit) ∧
    classifyResponse true (.resp 200 (some sampleErr) (none : Option Unit)) =
      (.decodeErr : ApiResult ErrorResponse Unit) ∧
    classifyResponse false (.resp 200 (some sampleErr) (some ())) =
      (.success none : ApiResult ErrorResponse Unit) ∧
    sendRequest true (.doErr "boom") =
      classifyResponse true
        (.doErr "boom" : TransportEvent ErrorResponse Unit) ∧
    sendRequestInternal true
        (.resp 200 none (some ()) : TransportEvent CPErrorResponse Unit) =
      classifyResponse true (.resp 200 none (some ())) :=
  classifyResponse_classification true 600 404 (some sampleErr)
    none (some ()) none sampleErr () (.doErr "boom")
    (.resp 200 none (some ())) (by norm_num) (by norm_num)

/-- Claim C8: client construction rejects invalid configuration and never
returns a partial client.  For an empty application ID or a nil private
key, `NewClient` returns an error (an `Except.error` carries no client
value at all); and for a token TTL outside (0, 86400], `WithTokenTTL`
panics (modelled as `Except.error`), so construction aborts with no
partial client. -/
theorem NewClient_validation {κ : Type} (appID : String)
    (pk : Option κ) (opts opts2 : List (APIClient κ → APIClient κ))
    (ttl : Int) (h2 : appID ≠ "") (h3 : ttl ≤ 0 ∨ ttl > 86400) :
    NewClient "" pk opts = .error "application ID cannot be empty" ∧
    NewClient appID (none : Option κ) opts2 =
      .error "private key cannot be nil" ∧
    WithTokenTTL κ ttl =
      .error "token TTL must be between 1 and 86400 seconds" := by
  refine ⟨by simp [NewClient], ?_, ?_⟩
  · simp [NewClient, h2]
  · have : ttl ≤ 0 ∨ ttl > ClientMaximumTokenTTL := by
      simpa [ClientMaximumTokenTTL] using h3
    simp [WithTokenTTL, this]

/-- Witness for claim C8 at concrete inputs: a non-empty application ID
"app", a nil `Unit` private key, and the out-of-bound TTL 90000. -/
theorem NewClient_validation_witness :
    NewClient "" (none : Option Unit) [] =
      .error "application ID cannot be empty" ∧
    NewClient "app" (none : Option Unit) [] =
      .error "private key cannot be nil" ∧
    WithTokenTTL Unit 90000 =
      .error "token TTL must be between 1 and 86400 seconds" :=
  NewClient_validation "app" (none : Option Unit) [] [] 90000
    (by decide) (by norm_num)

/-- Filtering with a predicate implied by the search predicate does not
change the result of `find?`. -/
theorem find?_filter_imp {α : Type} (p q : α → Bool)
    (himp : ∀ a, p a = true → q a = true) :
    ∀ l : List α, (l.filter q).find? p = l.find? p := by
  intro l
  induction l with
  | nil => rfl
  | cons hd tl ih =>
    rw [List.filter_cons]
    cases hq : q hd with
    | true =>
      rw [if_pos rfl, List.find?_cons, List.find?_cons]
      cases hp : p hd with
      | true => rfl
      | false => exact ih
    | false =>
      have hp : p hd = false := by
        cases hph : p hd
        · rfl
        · rw [himp hd hph] at hq
          exact hq
      rw [if_neg (by simp), List.find?_cons, hp]
      exact ih

/-- `headerSet` then `headerGet` at the same key yields the set value. -/
theorem headerGet_headerSet_self (h : List (String × String)) (k v : String) :
    headerGet (headerSet h k v) k = some v := by
  simp [headerGet, headerSet, List.find?]

/-- `headerSet` then `headerGet` at a different key is unchanged. -/
theorem headerGet_headerSet_ne (h : List (String × String)) (k k2 v : String)
    (hne : k2 ≠ k) : headerGet (headerSet h k v) k2 = headerGet h k2 := by
  unfold headerGet headerSet
  rw [List.find?_cons]
  have hhead : decide ((k, v).1 = k2) = false := by
    simp
    exact fun he => hne he.symm
  rw [hhead]
  congr 1
  exact find?_filter_imp _ _
    (fun kv hp => by
      simp only [decide_eq_true_eq] at hp
      simp only [decide_eq_true_eq, ne_eq]
      exact fun he => hne (hp ▸ he)) h

/-- Run equation for `sendAuthenticatedRequest`: first dispatch not an
"Unauthorized" structured error — the outcome is returned unchanged
after a single dispatch, with no refresh. -/
theorem sendAuthenticatedRequest_eq_noauth {ρ : Type} (c : CPClient)
    (req : Request) (wantResult : Bool) (env : AuthEnv ρ) (t : Token)
    (hTok : c.token = some t)
    (hU : isUnauthorizedResult (sendRequestInternal wantResult env.first) =
      false) :
    sendAuthenticatedRequest c req wantResult env =
      some (c, sendRequestInternal wantResult env.first,
        [.dispatched
          { req.setHeader "Authorization" ("Bearer " ++ t.idToken) with
            body := some (req.body.getD []) }]) := by
  cases hb : req.body with
  | none =>
    simp [sendAuthenticatedRequest, hTok, hU, Request.setHeader, hb]
  | some bs =>
    simp [sendAuthenticatedRequest, hTok, hU, Request.setHeader, hb]

/-- Run equation for `sendAuthenticatedRequest`: first dispatch is the
"Unauthorized" structured error and the refresh call fails — a wrapped
refresh error is returned after one dispatch and one refresh call, with
no replay. -/
theorem sendAuthenticatedRequest_eq_refreshFail {ρ : Type} (c : CPClient)
    (req : Request) (wantResult : Bool) (env : AuthEnv ρ) (t : Token)
    (msg : String) (hTok : c.token = some t)
    (hU : isUnauthorizedResult (sendRequestInternal wantResult env.first) =
      true)
    (hR : env.refresh = .error msg) :
    sendAuthenticatedRequest c req wantResult env =
      some (c, .refreshErr ("failed to refresh token: " ++ msg),
        [.dispatched
          { req.setHeader "Authorization" ("Bearer " ++ t.idToken) with
            body := some (req.body.getD []) },
         .refreshCall t.refreshToken]) := by
  cases hb : req.body with
  | none =>
    simp [sendAuthenticatedRequest, hTok, hU, hR, Request.setHeader, hb]
  | some bs =>
    simp [sendAuthenticatedRequest, hTok, hU, hR, Request.setHeader, hb]

/-- Run equation for `sendAuthenticatedRequest`: first dispatch is the
"Unauthorized" structured error and the refresh call succeeds — the
cached token is overwritten, the optional callback fires, the original
request is replayed once with the new bearer token, and the replay's
outcome is the final result. -/
theorem sendAuthenticatedRequest_eq_refreshOk {ρ : Type} (c : CPClient)
    (req : Request) (wantResult : Bool) (env : AuthEnv ρ) (t : Token)
    (newResp : RefreshTokenResponse) (hTok : c.token = some t)
    (hU : isUnauthorizedResult (sendRequestInternal wantResult env.first) =
      true)
    (hR : env.refresh = .ok newResp) :
    sendAuthenticatedRequest c req wantResult env =
      some ({ c with token := some (Token.ofRefresh newResp) },
        sendRequestInternal wantResult env.replay,
        [.dispatched
          { req.setHeader "Authorization" ("Bearer " ++ t.idToken) with
            body := some (req.body.getD []) },
         .refreshCall t.refreshToken] ++
        (if c.hasCallback then [.callback (Token.ofRefresh newResp)]
         else []) ++
        [.dispatched
          { (req.setHeader "Authorization"
              ("Bearer " ++ t.idToken)).setHeader "Authorization"
                ("Bearer " ++ newResp.idToken) with
            body := some (req.body.getD []) }]) := by
  cases hb : req.body with
  | none =>
    simp [sendAuthenticatedRequest, hTok, hU, hR, Request.setHeader, hb]
  | some bs =>
    simp [sendAuthenticatedRequest, hTok, hU, hR, Request.setHeader, hb]

/-- Counterexample to claim C1 as stated: when the first dispatch returns
the "Unauthorized" structured error but the refresh call itself fails,
the code performs one refresh and ZERO replays, and returns the wrapped
refresh error rather than any replay outcome — contradicting "exactly
one replay of the original request, and returns the replay's outcome as
the final result". -/
theorem sendAuthenticatedRequest_once_counterexample :
    isUnauthorizedResult (sendRequestInternal true envRefreshFail.first) =
      true ∧
    sendAuthenticatedRequest cpClientA emptyReq true envRefreshFail =
      some (cpClientA, .refreshErr "failed to refresh token: boom",
        [.dispatched (emptyReqBearer "A"), .refreshCall "R1"]) ∧
    (dispatchedReqs
      [.dispatched (emptyReqBearer "A"),
       .refreshCall (ρ := Unit) "R1"]).length = 1 ∧
    (.refreshErr "failed to refresh token: boom" :
        ApiResult CPErrorResponse Unit) ≠
      sendRequestInternal true envRefreshFail.replay := by
  refine ⟨by decide, by decide, by decide, by decide⟩

/-- Claim C1 (amended): for every `sendAuthenticatedRequest` call whose
first dispatch returns a structured error with message exactly
"Unauthorized" (matched on the decoded body, not the HTTP status): if
the one-shot refresh succeeds, the client performs exactly one refresh
call and exactly one replay (two dispatches in total) and returns the
replay's outcome as the final result, with no further refresh or replay
even if the replay also fails with "Unauthorized"; if the refresh call
fails, the wrapped refresh error is returned after one refresh and no
replay.  A first response that is a success or any other error is
returned unchanged after a single dispatch with no refresh. -/
theorem sendAuthenticatedRequest_refresh_replay {ρ : Type} (c : CPClient)
    (req : Request) (wantResult : Bool) (env : AuthEnv ρ) (t : Token)
    (newResp : RefreshTokenResponse) (msg : String) (c2 : CPClient)
    (res : ApiResult CPErrorResponse ρ) (tr : List (AuthEvent ρ))
    (hTok : c.token = some t)
    (hrun : sendAuthenticatedRequest c req wantResult env =
      some (c2, res, tr)) :
    (isUnauthorizedResult (sendRequestInternal wantResult env.first) =
        true →
      env.refresh = .ok newResp →
      res = sendRequestInternal wantResult env.replay ∧
      refreshCount tr = 1 ∧ (dispatchedReqs tr).length = 2) ∧
    (isUnauthorizedResult (sendRequestInternal wantResult env.first) =
        true →
      env.refresh = .error msg →
      res = .refreshErr ("failed to refresh token: " ++ msg) ∧
      refreshCount tr = 1 ∧ (dispatchedReqs tr).length = 1) ∧
    (isUnauthorizedResult (sendRequestInternal wantResult env.first) =
        false →
      res = sendRequestInternal wantResult env.first ∧
      refreshCount tr = 0 ∧ (dispatchedReqs tr).length = 1) := by
  refine ⟨?_, ?_, ?_⟩
  · intro hU hR
    rw [sendAuthenticatedRequest_eq_refreshOk c req wantResult env t newResp
      hTok hU hR] at hrun
    simp only [Option.some.injEq, Prod.mk.injEq] at hrun
    obtain ⟨hc, hres, htr⟩ := hrun
    subst hres
    subst htr
    cases hcb : c.hasCallback <;>
      simp [hcb, refreshCount, dispatchedReqs, List.countP_cons,
        List.countP_append]
  · intro hU hR
    rw [sendAuthenticatedRequest_eq_refreshFail c req wantResult env t msg
      hTok hU hR] at hrun
    simp only [Option.some.injEq, Prod.mk.injEq] at hrun
    obtain ⟨hc, hres, htr⟩ := hrun
    subst hres
    subst htr
    simp [refreshCount, dispatchedReqs, List.countP_cons]
  · intro hU
    rw [sendAuthenticatedRequest_eq_noauth c req wantResult env t
      hTok hU] at hrun
    simp only [Option.some.injEq, Prod.mk.injEq] at hrun
    obtain ⟨hc, hres, htr⟩ := hrun
    subst hres
    subst htr
    simp [refreshCount, dispatchedReqs, List.countP_cons]

/-- Witness for the amended claim C1: the concrete scenario-B run, where
the refresh succeeds and the replay succeeds. -/
theorem sendAuthenticatedRequest_refresh_replay_witness :
    (isUnauthorizedResult (sendRequestInternal true envOkB.first) = true →
      envOkB.refresh = .ok refreshRespB →
      (.success (some ()) : ApiResult CPErrorResponse Unit) =
        sendRequestInternal true envOkB.replay ∧
      refreshCount traceOkB = 1 ∧ (dispatchedReqs traceOkB).length = 2) ∧
    (isUnauthorizedResult (sendRequestInternal true envOkB.first) = true →
      envOkB.refresh = .error "boom" →
      (.success (some ()) : ApiResult CPErrorResponse Unit) =
        .refreshErr ("failed to refresh token: " ++ "boom") ∧
      refreshCount traceOkB = 1 ∧ (dispatchedReqs traceOkB).length = 1) ∧
    (isUnauthorizedResult (sendRequestInternal true envOkB.first) = false →
      (.success (some ()) : ApiResult CPErrorResponse Unit) =
        sendRequestInternal true envOkB.first ∧
      refreshCount traceOkB = 0 ∧ (dispatchedReqs traceOkB).length = 1) :=
  sendAuthenticatedRequest_refresh_replay cpClientA emptyReq true envOkB
    tokenA refreshRespB "boom"
    { token := some tokenB, hasCallback := true } (.success (some ()))
    traceOkB (by decide) (by decide)

/-- Claim C5: for every request with a non-empty body that goes through
the refresh-and-replay path, the body bytes sent on the original attempt
and on the replayed attempt are byte-identical: both dispatched requests
carry exactly the buffered bytes of the original body. -/
theorem sendAuthenticatedRequest_body_preserved {ρ : Type} (c : CPClient)
    (req : Request) (wantResult : Bool) (env : AuthEnv ρ) (t : Token)
    (newResp : RefreshTokenResponse) (bs : List Nat) (c2 : CPClient)
    (res : ApiResult CPErrorResponse ρ) (tr : List (AuthEvent ρ))
    (hTok : c.token = some t) (hBody : req.body = some bs)
    (hU : isUnauthorizedResult (sendRequestInternal wantResult env.first) =
      true)
    (hR : env.refresh = .ok newResp)
    (hrun : sendAuthenticatedRequest c req wantResult env =
      some (c2, res, tr)) :
    (dispatchedReqs tr).map Request.body = [some bs, some bs] := by
  rw [sendAuthenticatedRequest_eq_refreshOk c req wantResult env t newResp
    hTok hU hR] at hrun
  simp only [Option.some.injEq, Prod.mk.injEq] at hrun
  obtain ⟨hc, hres, htr⟩ := hrun
  subst htr
  cases hcb : c.hasCallback <;>
    simp [hcb, dispatchedReqs, hBody]

/-- Witness for claim C5: the scenario-B run of a request with body
`[1, 2, 3]`; both dispatched requests carry exactly those bytes. -/
theorem sendAuthenticatedRequest_body_preserved_witness :
    (dispatchedReqs traceOkBody).map Request.body =
      [some [1, 2, 3], some [1, 2, 3]] :=
  sendAuthenticatedRequest_body_preserved cpClientA reqBody123 true envOkB
    tokenA refreshRespB [1, 2, 3]
    { token := some tokenB, hasCallback := true } (.success (some ()))
    traceOkBody (by decide) (by decide) (by decide) rfl (by decide)

/-- Claim C10: after the body-buffering step every dispatched request of
a `sendAuthenticatedRequest` call carries a non-nil body reading exactly
the buffered bytes of the original body — `some []` when the request was
constructed with a nil body — and this holds on the original dispatch
and on any replay; at least one dispatch always happens. -/
theorem sendAuthenticatedRequest_body_nonnil {ρ : Type} (c : CPClient)
    (req : Request) (wantResult : Bool) (env : AuthEnv ρ) (t : Token)
    (c2 : CPClient) (res : ApiResult CPErrorResponse ρ)
    (tr : List (AuthEvent ρ)) (hTok : c.token = some t)
    (hrun : sendAuthenticatedRequest c req wantResult env =
      some (c2, res, tr)) :
    1 ≤ (dispatchedReqs tr).length ∧
    ((dispatchedReqs tr).all fun r =>
      r.body = some (req.body.getD [])) = true := by
  cases hU : isUnauthorizedResult (sendRequestInternal wantResult env.first)
  case false =>
    rw [sendAuthenticatedRequest_eq_noauth c req wantResult env t
      hTok hU] at hrun
    simp only [Option.some.injEq, Prod.mk.injEq] at hrun
    obtain ⟨hc, hres, htr⟩ := hrun
    subst htr
    simp [dispatchedReqs]
  case true =>
    cases hR : env.refresh with
    | error msg =>
      rw [sendAuthenticatedRequest_eq_refreshFail c req wantResult env t msg
        hTok hU hR] at hrun
      simp only [Option.some.injEq, Prod.mk.injEq] at hrun
      obtain ⟨hc, hres, htr⟩ := hrun
      subst htr
      simp [dispatchedReqs]
    | ok newResp =>
      rw [sendAuthenticatedRequest_eq_refreshOk c req wantResult env t
        newResp hTok hU hR] at hrun
      simp only [Option.some.injEq, Prod.mk.injEq] at hrun
      obtain ⟨hc, hres, htr⟩ := hrun
      subst htr
      cases hcb : c.hasCallback <;> simp [hcb, dispatchedReqs]

/-- Witness for claim C10: the scenario-B run of the nil-body request;
both dispatched requests carry the non-nil empty body `some []`. -/
theorem sendAuthenticatedRequest_body_nonnil_witness :
    1 ≤ (dispatchedReqs traceOkB).length ∧
    ((dispatchedReqs traceOkB).all fun r =>
      r.body = some (emptyReq.body.getD [])) = true :=
  sendAuthenticatedRequest_body_nonnil cpClientA emptyReq true envOkB
    tokenA { token := some tokenB, hasCallback := true }
    (.success (some ())) traceOkB (by decide) (by decide)

/-- Claim C7: whenever the one-shot refresh succeeds, the cached
`idToken`/`refreshToken`/`expiresIn` are all overwritten with the
refresh response, and with a callback configured the trace is exactly
dispatch, refresh call, callback with the new credential snapshot, then
the replay dispatch — so the callback fires before the replay.  The
replayed request carries `Authorization: Bearer <new idToken>`, and any
subsequent call on the updated client attaches the new id token to its
first dispatched request. -/
theorem sendAuthenticatedRequest_refresh_updates {ρ : Type} (c : CPClient)
    (req : Request) (wantResult : Bool) (env : AuthEnv ρ) (t : Token)
    (newResp : RefreshTokenResponse) (c2 : CPClient)
    (res : ApiResult CPErrorResponse ρ) (tr : List (AuthEvent ρ))
    (req2 : Request) (want2 : Bool) (env2 : AuthEnv ρ) (c3 : CPClient)
    (res2 : ApiResult CPErrorResponse ρ) (tr2 : List (AuthEvent ρ))
    (hTok : c.token = some t) (hCb : c.hasCallback = true)
    (hU : isUnauthorizedResult (sendRequestInternal wantResult env.first) =
      true)
    (hR : env.refresh = .ok newResp)
    (hrun : sendAuthenticatedRequest c req wantResult env =
      some (c2, res, tr))
    (hrun2 : sendAuthenticatedRequest c2 req2 want2 env2 =
      some (c3, res2, tr2)) :
    c2.token = some (Token.ofRefresh newResp) ∧
    tr = [.dispatched
            { req.setHeader "Authorization" ("Bearer " ++ t.idToken) with
              body := some (req.body.getD []) },
          .refreshCall t.refreshToken,
          .callback (Token.ofRefresh newResp),
          .dispatched
            { (req.setHeader "Authorization"
                ("Bearer " ++ t.idToken)).setHeader "Authorization"
                  ("Bearer " ++ newResp.idToken) with
              body := some (req.body.getD []) }] ∧
    headerGet ((req.setHeader "Authorization"
        ("Bearer " ++ t.idToken)).setHeader "Authorization"
          ("Bearer " ++ newResp.idToken)).headers "Authorization" =
      some ("Bearer " ++ newResp.idToken) ∧
    (dispatchedReqs tr2).head?.map
        (fun r => headerGet r.headers "Authorization") =
      some (some ("Bearer " ++ newResp.idToken)) := by
  rw [sendAuthenticatedRequest_eq_refreshOk c req wantResult env t newResp
    hTok hU hR] at hrun
  simp only [Option.some.injEq, Prod.mk.injEq] at hrun
  obtain ⟨hc, hres, htr⟩ := hrun
  subst hc
  subst htr
  have hTok2 : ({ c with token := some (Token.ofRefresh newResp) } :
      CPClient).token = some (Token.ofRefresh newResp) := rfl
  refine ⟨rfl, by simp [hCb], ?_, ?_⟩
  · simp [Request.setHeader, headerGet_headerSet_self]
  · cases hU2 : isUnauthorizedResult (sendRequestInternal want2 env2.first)
    case false =>
      rw [sendAuthenticatedRequest_eq_noauth _ req2 want2 env2 _
        hTok2 hU2] at hrun2
      simp only [Option.some.injEq, Prod.mk.injEq] at hrun2
      obtain ⟨hc2, hres2, htr2⟩ := hrun2
      subst htr2
      simp [dispatchedReqs, Request.setHeader, Token.ofRefresh,
        headerGet_headerSet_self]
    case true =>
      cases hR2 : env2.refresh with
      | error msg =>
        rw [sendAuthenticatedRequest_eq_refreshFail _ req2 want2 env2 _ msg
          hTok2 hU2 hR2] at hrun2
        simp only [Option.some.injEq, Prod.mk.injEq] at hrun2
        obtain ⟨hc2, hres2, htr2⟩ := hrun2
        subst htr2
        simp [dispatchedReqs, Request.setHeader, Token.ofRefresh,
          headerGet_headerSet_self]
      | ok newResp2 =>
        rw [sendAuthenticatedRequest_eq_refreshOk _ req2 want2 env2 _
          newResp2 hTok2 hU2 hR2] at hrun2
        simp only [Option.some.injEq, Prod.mk.injEq] at hrun2
        obtain ⟨hc2, hres2, htr2⟩ := hrun2
        subst htr2
        cases hcb2 : ({ c with token := some (Token.ofRefresh newResp) } :
            CPClient).hasCallback <;>
          simp [hcb2, dispatchedReqs, Request.setHeader, Token.ofRefresh,
            headerGet_headerSet_self]

/-- Witness for claim C7: the concrete scenario-B run (token "A"
refreshed to "B") followed by a second call on the updated client. -/
theorem sendAuthenticatedRequest_refresh_updates_witness :
    ({ token := some tokenB, hasCallback := true } : CPClient).token =
      some (Token.ofRefresh refreshRespB) ∧
    traceOkB = [.dispatched
          { emptyReq.setHeader "Authorization"
              ("Bearer " ++ tokenA.idToken) with
            body := some (emptyReq.body.getD []) },
        .refreshCall tokenA.refreshToken,
        .callback (Token.ofRefresh refreshRespB),
        .dispatched
          { (emptyReq.setHeader "Authorization"
              ("Bearer " ++ tokenA.idToken)).setHeader "Authorization"
                ("Bearer " ++ refreshRespB.idToken) with
            body := some (emptyReq.body.getD []) }] ∧
    headerGet ((emptyReq.setHeader "Authorization"
        ("Bearer " ++ tokenA.idToken)).setHeader "Authorization"
          ("Bearer " ++ refreshRespB.idToken)).headers "Authorization" =
      some ("Bearer " ++ refreshRespB.idToken) ∧
    (dispatchedReqs traceOkB2).head?.map
        (fun r => headerGet r.headers "Authorization") =
      some (some ("Bearer " ++ refreshRespB.idToken)) := by
  have h := sendAuthenticatedRequest_refresh_updates cpClientA emptyReq true
    envOkB tokenA refreshRespB
    { token := some tokenB, hasCallback := true } (.success (some ()))
    traceOkB emptyReq true envOkB
    { token := some tokenB, hasCallback := true } (.success (some ()))
    traceOkB2 (by decide) (by decide) (by decide) rfl (by decide) (by decide)
  exact h

/-- `FillHTTPHeader` step equation (the fold is structural). -/
theorem FillHTTPHeader_cons (hd : String × String)
    (rest : List (String × String)) (t : List (String × String)) :
    FillHTTPHeader (hd :: rest) t =
      FillHTTPHeader rest (headerSet t hd.1 hd.2) := rfl

/-- Filling headers whose keys avoid `k` does not change the lookup of
`k`. -/
theorem headerGet_FillHTTPHeader_not_mem (hs : List (String × String))
    (k : String) (hk : ¬k ∈ hs.map Prod.fst) :
    ∀ t, headerGet (FillHTTPHeader hs t) k = headerGet t k := by
  induction hs with
  | nil => intro t; rfl
  | cons hd rest ih =>
    intro t
    have hk0 : k ≠ hd.1 := fun he => hk (by simp [he])
    have hkr : ¬k ∈ rest.map Prod.fst := fun hm => hk (by simp [hm])
    rw [FillHTTPHeader_cons, ih hkr]
    exact headerGet_headerSet_ne t hd.1 k hd.2 hk0

/-- When the filled headers do set `k`, the lookup of `k` after the fill
does not depend on the target the fill started from. -/
theorem headerGet_FillHTTPHeader_mem (hs : List (String × String))
    (k : String) (hk : k ∈ hs.map Prod.fst) :
    ∀ t t2, headerGet (FillHTTPHeader hs t) k =
      headerGet (FillHTTPHeader hs t2) k := by
  induction hs with
  | nil => simp at hk
  | cons hd rest ih =>
    intro t t2
    by_cases hkr : k ∈ rest.map Prod.fst
    · exact ih hkr _ _
    · have hk0 : k = hd.1 := by
        rcases (by simpa using hk : k = hd.1 ∨ k ∈ rest.map Prod.fst) with
          h | h
        · exact h
        · exact absurd h hkr
      rw [FillHTTPHeader_cons, FillHTTPHeader_cons,
        headerGet_FillHTTPHeader_not_mem rest k hkr,
        headerGet_FillHTTPHeader_not_mem rest k hkr, hk0,
        headerGet_headerSet_self, headerGet_headerSet_self]

/-- Counterexample to claim C9 as stated: a client-level default for the
`Authorization` key, absent from the per-call headers, is NOT present
unchanged on the outgoing request — the authorizer overwrites it with
the bearer token inside `newRequest`, after the defaults are filled. -/
theorem getAccountDetailsHeaders_counterexample :
    headerGet (getAccountDetailsHeaders [("Authorization", "custom")] "tok"
        (some [])) "Authorization" = some "Bearer tok" ∧
    (some "Bearer tok" : Option String) ≠ some "custom" := by
  refine ⟨by decide, by decide⟩

/-- Claim C9 (amended): per-call headers are layered on top of the
client-level defaults already set on the request; a client default whose
key is absent from the per-call headers is present unchanged — except
the `Authorization` header, which the authorizer always overwrites after
the defaults are filled (and `Content-Type` on operations that send a
body) — and a per-call header explicitly re-setting a key determines
that key's final value. -/
theorem getAccountDetailsHeaders_layering
    (ch hs : List (String × String)) (tok k1 k2 v : String)
    (hAuth : k1 ≠ "Authorization") (h1 : ¬k1 ∈ hs.map Prod.fst)
    (h2 : headerGet (FillHTTPHeader hs []) k2 = some v) :
    headerGet (getAccountDetailsHeaders ch tok (some hs)) k1 =
      headerGet (FillHTTPHeader ch []) k1 ∧
    headerGet (getAccountDetailsHeaders ch tok (some hs)) k2 = some v := by
  constructor
  · show headerGet (FillHTTPHeader hs (newRequestHeaders ch false tok)) k1 =
      headerGet (FillHTTPHeader ch []) k1
    rw [headerGet_FillHTTPHeader_not_mem hs k1 h1]
    show headerGet (headerSet (FillHTTPHeader ch [])
      "Authorization" ("Bearer " ++ tok)) k1 = _
    exact headerGet_headerSet_ne _ _ _ _ hAuth
  · have hmem : k2 ∈ hs.map Prod.fst := by
      by_contra hnm
      rw [headerGet_FillHTTPHeader_not_mem hs k2 hnm] at h2
      exact Option.noConfusion h2
    show headerGet (FillHTTPHeader hs (newRequestHeaders ch false tok)) k2 =
      some v
    rw [headerGet_FillHTTPHeader_mem hs k2 hmem
      (newRequestHeaders ch false tok) []]
    exact h2

/-- Witness for the amended claim C9: client defaults `X-Custom: a` and
`Psu-Ip-Address: 1.2.3.4`; the per-call headers re-set only
`Psu-Ip-Address`.  `X-Custom` survives unchanged and the per-call
`Psu-Ip-Address` wins. -/
theorem getAccountDetailsHeaders_layering_witness :
    headerGet (getAccountDetailsHeaders
        [("X-Custom", "a"), ("Psu-Ip-Address", "1.2.3.4")] "tok"
        (some [("Psu-Ip-Address", "5.6.7.8")])) "X-Custom" =
      headerGet (FillHTTPHeader
        [("X-Custom", "a"), ("Psu-Ip-Address", "1.2.3.4")] []) "X-Custom" ∧
    headerGet (getAccountDetailsHeaders
        [("X-Custom", "a"), ("Psu-Ip-Address", "1.2.3.4")] "tok"
        (some [("Psu-Ip-Address", "5.6.7.8")])) "Psu-Ip-Address" =
      some "5.6.7.8" :=
  getAccountDetailsHeaders_layering
    [("X-Custom", "a"), ("Psu-Ip-Address", "1.2.3.4")]
    [("Psu-Ip-Address", "5.6.7.8")] "tok" "X-Custom" "Psu-Ip-Address"
    "5.6.7.8" (by decide) (by decide) (by decide)

end EnableBanking
